import Mathlib

/-!
Verification of the Sphinx configuration module `conf.py` of the
`duoan/jax-dl` repository.  The module is a straight-line sequence of
ten top-level assignments of literal values.  We embed it as a list of
assignment statements over a small model of Python values, evaluate the
module into an environment (a map from names to values) inside `Except`
(Python expression evaluation can raise, e.g. a `NameError` on an
unbound name), and prove the claimed properties of the resulting
bindings.
-/

/-- Model of the Python values occurring in (or relevant to) the
configuration module: strings, booleans and lists. -/
inductive PyValue where
  | str : String → PyValue
  | bool : Bool → PyValue
  | list : List PyValue → PyValue

mutual

/-- Structural equality test on values. -/
def PyValue.beq : PyValue → PyValue → Bool
  | .str a, .str b => a == b
  | .bool a, .bool b => a == b
  | .list a, .list b => PyValue.beqList a b
  | _, _ => false

/-- Structural equality test on lists of values. -/
def PyValue.beqList : List PyValue → List PyValue → Bool
  | [], [] => true
  | a :: as, b :: bs => PyValue.beq a b && PyValue.beqList as bs
  | _, _ => false

end

instance : BEq PyValue := ⟨PyValue.beq⟩

/-- Model of the Python expressions occurring on the right-hand sides of
the module's assignments: string literals, boolean literals, list
displays, and name references (which can fail with a `NameError`). -/
inductive Expr where
  | strLit : String → Expr
  | boolLit : Bool → Expr
  | name : String → Expr
  | listLit : List Expr → Expr

/-- A module-level environment: the bindings produced so far. -/
abbrev Env := String → Option PyValue

/-- The empty environment: no name is bound. -/
def emptyEnv : Env := fun _ => none

/-- Bind a name to a value, leaving every other name unchanged. -/
def setVar (σ : Env) (k : String) (v : PyValue) : Env :=
  fun k2 => if k2 = k then some v else σ k2

mutual

/-- Evaluate an expression in an environment.  Literals always succeed;
a name reference fails with the unbound name when it is not bound. -/
def evalExpr (σ : Env) : Expr → Except String PyValue
  | .strLit s => .ok (.str s)
  | .boolLit b => .ok (.bool b)
  | .name n =>
      match σ n with
      | some v => .ok v
      | none => .error ("NameError: " ++ n)
  | .listLit es => do
      let vs ← evalExprList σ es
      pure (.list vs)

/-- Evaluate a list of expressions left to right, keeping the order. -/
def evalExprList (σ : Env) : List Expr → Except String (List PyValue)
  | [] => .ok []
  | e :: es => do
      let v ← evalExpr σ e
      let vs ← evalExprList σ es
      pure (v :: vs)

end

/-- A top-level statement of the module: an assignment `key = rhs`. -/
structure Stmt where
  key : String
  rhs : Expr

/-- Execute one assignment: evaluate the right-hand side and bind the
key to the resulting value. -/
def evalStmt (σ : Env) (s : Stmt) : Except String Env :=
  (evalExpr σ s.rhs).map (setVar σ s.key)

/-- Execute a sequence of statements in order. -/
def evalStmts (σ : Env) : List Stmt → Except String Env
  | [] => .ok σ
  | s :: rest => do
      let σ2 ← evalStmt σ s
      evalStmts σ2 rest

/-- The ten top-level assignments of `conf.py`, in source order. -/
def confStmts : List Stmt := [
  ⟨"project", .strLit "Deep Learning with JAX"⟩,
  ⟨"copyright", .strLit "2025, Victor An"⟩,
  ⟨"author", .strLit "Victor An"⟩,
  ⟨"extensions", .listLit [.strLit "sphinx.ext.autodoc",
                           .strLit "sphinx.ext.viewcode",
                           .strLit "nbsphinx"]⟩,
  ⟨"templates_path", .listLit [.strLit "_templates"]⟩,
  ⟨"exclude_patterns", .listLit [.strLit "_build",
                                 .strLit "Thumbs.db",
                                 .strLit ".DS_Store"]⟩,
  ⟨"language", .strLit "en"⟩,
  ⟨"html_theme", .strLit "sphinx_rtd_theme"⟩,
  ⟨"html_static_path", .listLit [.strLit "_static"]⟩,
  ⟨"nbsphinx_execute", .strLit "auto"⟩]

/-- Evaluating the whole configuration module from a given initial
environment. -/
def evalConf (σ : Env) : Except String Env := evalStmts σ confStmts

/-- The environment a successful evaluation produces (the empty
environment when evaluation failed). -/
def okEnv : Except String Env → Env
  | .ok σ => σ
  | .error _ => emptyEnv

/-- The bindings of the module, evaluated from the empty environment. -/
def moduleEnv : Env := okEnv (evalConf emptyEnv)

/-- The top-level keys the module declares, in source order. -/
def declaredKeys : List String :=
  ["project", "copyright", "author", "extensions", "templates_path",
   "exclude_patterns", "language", "html_theme", "html_static_path",
   "nbsphinx_execute"]

/-- Whether a value is a string. -/
def PyValue.isStr : PyValue → Bool
  | .str _ => true
  | _ => false

/-- Whether a value is a list all of whose elements are strings. -/
def PyValue.isStrList : PyValue → Bool
  | .list vs => vs.all PyValue.isStr
  | _ => false

/-- Whether a value is a boolean. -/
def PyValue.isBool : PyValue → Bool
  | .bool _ => true
  | _ => false

/-- The recognized enumeration for `nbsphinx_execute`. -/
def nbsphinxExecuteValues : List String := ["auto", "always", "never"]

/-- A key is well typed in an environment when it is bound and its value
is a string or a list of strings (the recognized enum values are
strings, so they are covered). -/
def wellTypedAt (σ : Env) (k : String) : Bool :=
  match σ k with
  | some v => v.isStr || v.isStrList
  | none => false

/-- A list has pairwise-distinct elements. -/
def pairwiseDistinct : List PyValue → Bool
  | [] => true
  | v :: vs => !(vs.contains v) && pairwiseDistinct vs

/-- A key is bound to a non-empty duplicate-free list. -/
def nonemptyDistinctListAt (σ : Env) (k : String) : Bool :=
  match σ k with
  | some (.list vs) => !vs.isEmpty && pairwiseDistinct vs
  | _ => false

/-- The list-valued keys of the module. -/
def listValuedKeys : List String :=
  ["extensions", "templates_path", "exclude_patterns", "html_static_path"]

/-- The statements exclude, via `exclude_patterns`, none of the input
directories named in `templates_path` and `html_static_path`. -/
def inputDirsNotExcluded (σ : Env) : Bool :=
  match σ "templates_path", σ "html_static_path", σ "exclude_patterns" with
  | some (.list ts), some (.list ss), some (.list es) =>
      ts.all (fun t => !(es.contains t)) && ss.all (fun s => !(es.contains s))
  | _, _, _ => false

/-- Evaluating the module from any initial environment succeeds and
produces, key by key, this fixed sequence of bindings. -/
theorem evalConf_ok (σ : Env) :
    evalConf σ = .ok (setVar (setVar (setVar (setVar (setVar (setVar (setVar
      (setVar (setVar (setVar σ
      "project" (.str "Deep Learning with JAX"))
      "copyright" (.str "2025, Victor An"))
      "author" (.str "Victor An"))
      "extensions" (.list [.str "sphinx.ext.autodoc",
                           .str "sphinx.ext.viewcode", .str "nbsphinx"]))
      "templates_path" (.list [.str "_templates"]))
      "exclude_patterns" (.list [.str "_build", .str "Thumbs.db",
                                 .str ".DS_Store"]))
      "language" (.str "en"))
      "html_theme" (.str "sphinx_rtd_theme"))
      "html_static_path" (.list [.str "_static"]))
      "nbsphinx_execute" (.str "auto")) := rfl

/-- Claim C1: after evaluating the configuration module, every declared
top-level key (project, copyright, author, extensions, templates_path,
exclude_patterns, language, html_theme, html_static_path,
nbsphinx_execute) is bound to a value that is a string or a list of
strings (the recognized enum values being strings); no key is bound to
any other kind of value. -/
theorem conf_declared_keys_well_typed :
    declaredKeys.all (wellTypedAt moduleEnv) = true := by decide

/-- Claim C2: evaluation binds `nbsphinx_execute` to the string "auto",
which is a member of the recognized enumeration {auto, always, never},
and that value is not a boolean. -/
theorem conf_nbsphinx_execute_is_auto :
    moduleEnv "nbsphinx_execute" = some (.str "auto") ∧
    "auto" ∈ nbsphinxExecuteValues ∧
    (PyValue.str "auto").isBool = false :=
  ⟨rfl, by decide, rfl⟩

/-- Claim C3: evaluation binds `extensions` to the list of string
identifiers ["sphinx.ext.autodoc", "sphinx.ext.viewcode", "nbsphinx"],
exactly in the order in which they are written in the source. -/
theorem conf_extensions_value :
    moduleEnv "extensions" = some (.list [.str "sphinx.ext.autodoc",
      .str "sphinx.ext.viewcode", .str "nbsphinx"]) := rfl

/-- Claim C4: evaluating the configuration module, modeled as a
computation in `Except`, returns `ok` from every initial environment:
the error branch is unreachable for every run. -/
theorem conf_eval_always_ok (σ : Env) : (evalConf σ).isOk = true := rfl

/-- Claim C5: evaluation of the module is deterministic and
input-independent: any two evaluations, from arbitrary initial
environments, produce identical bindings for every declared key. -/
theorem conf_eval_deterministic (σ1 σ2 : Env) (k : String)
    (hk : k ∈ declaredKeys) :
    okEnv (evalConf σ1) k = okEnv (evalConf σ2) k := by
  fin_cases hk <;> rfl

/-- Witness for claim C5 at two concrete, distinct initial environments
and the concrete key "language". -/
theorem conf_eval_deterministic_witness :
    "language" ∈ declaredKeys ∧
    okEnv (evalConf emptyEnv) "language" =
      okEnv (evalConf (fun _ => some (.bool true))) "language" :=
  ⟨by decide,
   conf_eval_deterministic emptyEnv (fun _ => some (.bool true)) "language"
     (by decide)⟩

/-- Claim C6: evaluating the module has no effect beyond producing its
own top-level bindings: every name outside the declared keys keeps the
value it had in the initial environment, and every declared key receives
a value independent of any pre-existing state. -/
theorem conf_eval_frame (σ : Env) (k : String) :
    (k ∉ declaredKeys → okEnv (evalConf σ) k = σ k) ∧
    (k ∈ declaredKeys → okEnv (evalConf σ) k = moduleEnv k) := by
  constructor
  · intro hk
    simp only [declaredKeys, List.mem_cons, List.not_mem_nil, or_false,
      not_or] at hk
    obtain ⟨h1, h2, h3, h4, h5, h6, h7, h8, h9, h10⟩ := hk
    rw [evalConf_ok σ]
    simp [okEnv, setVar, h1, h2, h3, h4, h5, h6, h7, h8, h9, h10]
  · intro hk
    fin_cases hk <;> rfl

/-- Witness for claim C6: from a concrete initial environment binding
the undeclared name "x", evaluation leaves "x" unchanged, and the
declared key "project" gets its fixed value. -/
theorem conf_eval_frame_witness :
    "x" ∉ declaredKeys ∧ "project" ∈ declaredKeys ∧
    okEnv (evalConf (setVar emptyEnv "x" (.bool true))) "x" =
      setVar emptyEnv "x" (.bool true) "x" ∧
    okEnv (evalConf (setVar emptyEnv "x" (.bool true))) "project" =
      moduleEnv "project" :=
  ⟨by decide, by decide,
   (conf_eval_frame (setVar emptyEnv "x" (.bool true)) "x").1 (by decide),
   (conf_eval_frame (setVar emptyEnv "x" (.bool true)) "project").2
     (by decide)⟩

/-- Claim C7: evaluation binds `language` and `html_theme` each to a
single non-empty scalar string — concretely "en" and
"sphinx_rtd_theme" — which is neither a list nor a boolean flag. -/
theorem conf_language_and_theme_scalar :
    moduleEnv "language" = some (.str "en") ∧
    moduleEnv "html_theme" = some (.str "sphinx_rtd_theme") ∧
    "en" ≠ "" ∧ "sphinx_rtd_theme" ≠ "" ∧
    (PyValue.str "en").isStrList = false ∧
    (PyValue.str "en").isBool = false ∧
    (PyValue.str "sphinx_rtd_theme").isStrList = false ∧
    (PyValue.str "sphinx_rtd_theme").isBool = false :=
  ⟨rfl, rfl, by decide, by decide, rfl, rfl, rfl, rfl⟩

/-- Claim C8: cross-setting consistency: evaluation binds
`nbsphinx_execute`, and the identifier "nbsphinx" is a member of the
list bound to `extensions`. -/
theorem conf_nbsphinx_extension_enabled :
    (moduleEnv "nbsphinx_execute").isSome = true ∧
    ∃ l, moduleEnv "extensions" = some (.list l) ∧
      l.contains (PyValue.str "nbsphinx") = true :=
  ⟨rfl, [.str "sphinx.ext.autodoc", .str "sphinx.ext.viewcode",
         .str "nbsphinx"], rfl, rfl⟩

/-- Claim C9: every list-valued setting produced by evaluation
(extensions, templates_path, exclude_patterns, html_static_path) is a
non-empty list with pairwise-distinct elements. -/
theorem conf_list_settings_nonempty_distinct :
    listValuedKeys.all (nonemptyDistinctListAt moduleEnv) = true := by
  decide

/-- Claim C10: no element of `templates_path` and no element of
`html_static_path` occurs as an element of `exclude_patterns`. -/
theorem conf_input_dirs_not_excluded :
    inputDirsNotExcluded moduleEnv = true := by decide
